import Mathlib

/-!
Verification of the C shim layer of lexiforest/curl_cffi
(src/curl_cffi/shim.c, src/ffi/shim.c, src/curl_cffi/include/shim.h).

The shim provides a growable byte buffer (`binary_string_t` with
`make_string`, `free_string`, `write_callback`) and an option-setting
indirection `_curl_easy_setopt` over the native `curl_easy_setopt`.
We embed these functions shallowly:

* a C buffer is a `List Nat` of bytes; a possibly-NULL pointer is an
  `Option`;
* `size_t` arithmetic is `Nat` reduced modulo `2 ^ 64` where the C code
  can overflow;
* heap allocation success is an explicit boolean oracle (`allocOk`),
  since `realloc` may fail nondeterministically;
* the native library `curl_easy_setopt` is an oracle function, and each
  shim returns, besides the `int` result, the trace of native calls it
  issued (option code paired with the argument kind and value actually
  passed, mirroring the C casts `*(int*)`, `*(long*)`, `*(curl_off_t*)`
  and plain pointer forwarding).
-/

/-- Modulus of `size_t` arithmetic on the 64-bit targets the shim is
built for. -/
def size_t_mod : Nat := 2 ^ 64

/-- Embeds `binary_string_t` from include/shim.h: a size field and a
`char*` buffer. `content = none` models a NULL pointer; `some buf`
models an allocated buffer whose length is the allocated capacity. -/
structure binary_string_t where
  size : Nat
  content : Option (List Nat)
deriving DecidableEq, Repr

/-- Embeds `make_string` from shim.c: allocates a descriptor with
`size = 0` and `content = NULL`. -/
def make_string : binary_string_t :=
  { size := 0, content := none }

/-- The heap actions `free_string` can perform, in order. -/
inductive FreeCall where
  | freeContent : FreeCall
  | freeStruct : FreeCall
deriving DecidableEq, Repr

/-- Embeds `free_string` from shim.c as the sequence of `free` calls it
issues: `free(obj->content)` only when `obj` and `obj->content` are
non-NULL, then `free(obj)` only when `obj` is non-NULL. -/
def free_string (obj : Option binary_string_t) : List FreeCall :=
  (match obj with
   | some o =>
     match o.content with
     | some _ => [FreeCall.freeContent]
     | none => []
   | none => []) ++
  (match obj with
   | some _ => [FreeCall.freeStruct]
   | none => [])

/-- Embeds `write_callback` from shim.c. Arguments mirror the C
signature `(contents, size, nmemb, userp)`; `userp` is the sink `mem`.
`allocOk` is the oracle for the `realloc` call: on success the buffer
becomes the old accumulated bytes, then `realsize` bytes copied from
`contents`, then the terminating `0` byte, and the function returns
`realsize`; on failure `content` is set to NULL (realloc returned NULL),
`size` is untouched, and the function returns `0`. The initial
`malloc(1)` on a NULL buffer is absorbed into the realloc, exactly as
`realloc(NULL, n)` behaves as `malloc(n)`. -/
def write_callback (contents : List Nat) (sz nmemb : Nat)
    (mem : binary_string_t) (allocOk : Bool) : binary_string_t × Nat :=
  let realsize := sz * nmemb % size_t_mod
  let old := mem.content.getD []
  if allocOk then
    ({ size := (mem.size + realsize) % size_t_mod,
       content := some (old.take mem.size ++ contents.take realsize ++ [0]) },
     realsize)
  else
    ({ size := mem.size, content := none }, 0)

/-- The accumulated bytes of a sink: the first `size` bytes of its
buffer. -/
def accumulated (mem : binary_string_t) : List Nat :=
  (mem.content.getD []).take mem.size

/-- One invocation of `write_callback` during a transfer: the chunk
delivered by the native library and the allocation outcome. -/
structure AppendEvent where
  contents : List Nat
  sz : Nat
  nmemb : Nat
  allocOk : Bool
deriving DecidableEq, Repr

/-- Runs a sequence of `write_callback` invocations against a sink. -/
def runAppends (mem : binary_string_t) (evs : List AppendEvent) : binary_string_t :=
  evs.foldl (fun m e => (write_callback e.contents e.sz e.nmemb m e.allocOk).1) mem

/-- Total byte count `size * nmemb` over the successful appends of a
sequence. -/
def successfulBytes (evs : List AppendEvent) : Nat :=
  ((evs.filter fun e => e.allocOk).map fun e => e.sz * e.nmemb).sum

/-- A `void*` parameter as the shims see it: the pointer value itself
(`addr`, passed through untouched on the object-pointer paths) and the
bytes stored at that address (read little-endian by the dereferencing
casts `*(int*)`, `*(long*)`, `*(curl_off_t*)`). -/
structure Param where
  addr : Nat
  bytes : List Nat
deriving DecidableEq, Repr

/-- Little-endian value of a byte list. -/
def leValue (bs : List Nat) : Nat :=
  bs.foldr (fun b acc => b % 256 + 256 * acc) 0

/-- Two's-complement reading of an unsigned `w`-bit value. -/
def toSigned (w : Nat) (n : Nat) : Int :=
  if n < 2 ^ (w - 1) then (n : Int) else (n : Int) - 2 ^ w

/-- The value of `*(int*)p`: the low 4 bytes, as a signed 32-bit int. -/
def Param.asInt (p : Param) : Int :=
  toSigned 32 (leValue (p.bytes.take 4))

/-- The value of `*(long*)p` on an LP64 target: 8 bytes, signed. -/
def Param.asLong (p : Param) : Int :=
  toSigned 64 (leValue (p.bytes.take 8))

/-- The value of `*(curl_off_t*)p`: 8 bytes, signed. -/
def Param.asOffT (p : Param) : Int :=
  toSigned 64 (leValue (p.bytes.take 8))

/-- The argument a shim hands to the variadic `curl_easy_setopt`: an
`int` value, a `long` value, a `curl_off_t` value, a data pointer, or
the `write_callback` function pointer. -/
inductive CArg where
  | ival : Int → CArg
  | lval : Int → CArg
  | oval : Int → CArg
  | pval : Nat → CArg
  | fval : CArg
deriving DecidableEq, Repr

/-- `#define INTEGER_OPTION_MAX 10000` in src/curl_cffi/shim.c. -/
def INTEGER_OPTION_MAX : Int := 10000

/-- curl constant `CURLOPTTYPE_OBJECTPOINT`. -/
def CURLOPTTYPE_OBJECTPOINT : Int := 10000

/-- curl constant `CURLOPTTYPE_OFF_T`. -/
def CURLOPTTYPE_OFF_T : Int := 30000

/-- curl constant `CURLOPTTYPE_BLOB`. -/
def CURLOPTTYPE_BLOB : Int := 40000

/-- curl constant `CURLOPT_WRITEDATA` (`CURLOPTTYPE_OBJECTPOINT + 1`). -/
def CURLOPT_WRITEDATA : Int := 10001

/-- curl constant `CURLOPT_HEADERDATA` (`CURLOPTTYPE_OBJECTPOINT + 29`). -/
def CURLOPT_HEADERDATA : Int := 10029

/-- curl constant `CURLOPT_WRITEFUNCTION` (`CURLOPTTYPE_FUNCTIONPOINT + 11`). -/
def CURLOPT_WRITEFUNCTION : Int := 20011

/-- curl constant `CURLOPT_HEADERFUNCTION` (`CURLOPTTYPE_FUNCTIONPOINT + 79`). -/
def CURLOPT_HEADERFUNCTION : Int := 20079

/-- curl constant `CURLE_OK`. -/
def CURLE_OK : Int := 0

/-- Embeds `_curl_easy_setopt` from src/curl_cffi/shim.c. `native` is
the native `curl_easy_setopt` (handle, option, argument ↦ CURLcode).
Returns the `int` result together with the trace of native calls made,
in order. The C function first installs `write_callback` when the
option is `CURLOPT_WRITEDATA` or `CURLOPT_HEADERDATA`, aborts if that
returns non-`CURLE_OK`, then dispatches: options below
`INTEGER_OPTION_MAX` pass the dereferenced `*(int*)parameter`, all
others pass the pointer itself. -/
def curl_cffi_easy_setopt (native : Nat → Int → CArg → Int) (curl : Nat)
    (option : Int) (parameter : Param) : Int × List (Int × CArg) :=
  let step1 : Int × List (Int × CArg) :=
    if option = CURLOPT_WRITEDATA then
      (native curl CURLOPT_WRITEFUNCTION CArg.fval,
       [(CURLOPT_WRITEFUNCTION, CArg.fval)])
    else if option = CURLOPT_HEADERDATA then
      (native curl CURLOPT_HEADERFUNCTION CArg.fval,
       [(CURLOPT_HEADERFUNCTION, CArg.fval)])
    else (CURLE_OK, [])
  if step1.1 ≠ CURLE_OK then step1
  else if option < INTEGER_OPTION_MAX then
    (native curl option (CArg.ival parameter.asInt),
     step1.2 ++ [(option, CArg.ival parameter.asInt)])
  else
    (native curl option (CArg.pval parameter.addr),
     step1.2 ++ [(option, CArg.pval parameter.addr)])

/-- Embeds `_curl_easy_setopt` from src/ffi/shim.c: options below
`CURLOPTTYPE_OBJECTPOINT` pass the dereferenced `*(long*)parameter`,
options in `[CURLOPTTYPE_OFF_T, CURLOPTTYPE_BLOB)` pass the
dereferenced `*(curl_off_t*)parameter`, all others pass the pointer
itself; no callback installation. -/
def ffi_easy_setopt (native : Nat → Int → CArg → Int) (curl : Nat)
    (option : Int) (parameter : Param) : Int × List (Int × CArg) :=
  if option < CURLOPTTYPE_OBJECTPOINT then
    (native curl option (CArg.lval parameter.asLong),
     [(option, CArg.lval parameter.asLong)])
  else if CURLOPTTYPE_OFF_T ≤ option ∧ option < CURLOPTTYPE_BLOB then
    (native curl option (CArg.oval parameter.asOffT),
     [(option, CArg.oval parameter.asOffT)])
  else
    (native curl option (CArg.pval parameter.addr),
     [(option, CArg.pval parameter.addr)])

/-! Helper lemmas about append sequences. -/

theorem successfulBytes_nil : successfulBytes [] = 0 := rfl

theorem successfulBytes_cons (e : AppendEvent) (evs : List AppendEvent) :
    successfulBytes (e :: evs)
      = (if e.allocOk then e.sz * e.nmemb else 0) + successfulBytes evs := by
  cases h : e.allocOk <;> simp [successfulBytes, List.filter_cons, h]

theorem successfulBytes_append (a b : List AppendEvent) :
    successfulBytes (a ++ b) = successfulBytes a + successfulBytes b := by
  simp [successfulBytes, List.filter_append]

theorem runAppends_cons (mem : binary_string_t) (e : AppendEvent)
    (evs : List AppendEvent) :
    runAppends mem (e :: evs)
      = runAppends (write_callback e.contents e.sz e.nmemb mem e.allocOk).1 evs := rfl

theorem write_callback_size_success (contents : List Nat) (sz nmemb : Nat)
    (mem : binary_string_t) (h : mem.size + sz * nmemb < size_t_mod) :
    (write_callback contents sz nmemb mem true).1.size = mem.size + sz * nmemb := by
  have hmul : sz * nmemb < size_t_mod := by omega
  simp [write_callback, Nat.mod_eq_of_lt hmul, Nat.mod_eq_of_lt h]

theorem write_callback_size_failure (contents : List Nat) (sz nmemb : Nat)
    (mem : binary_string_t) :
    (write_callback contents sz nmemb mem false).1.size = mem.size := rfl

theorem runAppends_size (evs : List AppendEvent) :
    ∀ mem : binary_string_t,
      (∀ e ∈ evs, e.sz * e.nmemb < size_t_mod) →
      mem.size + successfulBytes evs < size_t_mod →
      (runAppends mem evs).size = mem.size + successfulBytes evs := by
  induction evs with
  | nil => intro mem _ _; simp [runAppends, successfulBytes_nil]
  | cons e rest ih =>
    intro mem h1 h2
    rw [runAppends_cons]
    have h1r : ∀ x ∈ rest, x.sz * x.nmemb < size_t_mod :=
      fun x hx => h1 x (List.mem_cons_of_mem _ hx)
    cases hA : e.allocOk with
    | true =>
      have hsb : successfulBytes (e :: rest)
          = e.sz * e.nmemb + successfulBytes rest := by
        rw [successfulBytes_cons, hA, if_pos rfl]
      have hlt : mem.size + e.sz * e.nmemb < size_t_mod := by omega
      have hstep := write_callback_size_success e.contents e.sz e.nmemb mem hlt
      rw [ih _ h1r (by omega), hstep, hsb]
      omega
    | false =>
      have hsb : successfulBytes (e :: rest) = successfulBytes rest := by
        rw [successfulBytes_cons, hA]
        simp
      have hstep := write_callback_size_failure e.contents e.sz e.nmemb mem
      rw [ih _ h1r (by omega), hstep, hsb]

/-- C1: after each successful append the sink's `size` field equals the
sum of the byte counts `size * nmemb` of all successful appends so far,
and the size field never decreases across appends (stated over every
prefix of the transfer's append sequence), assuming the `size_t`
arithmetic of the transfer does not overflow. -/
theorem sink_size_sum_invariant (evs : List AppendEvent)
    (h1 : ∀ e ∈ evs, e.sz * e.nmemb < size_t_mod)
    (h2 : successfulBytes evs < size_t_mod) :
    (runAppends make_string evs).size = successfulBytes evs ∧
    ∀ n, (runAppends make_string (evs.take n)).size
      ≤ (runAppends make_string evs).size := by
  have hmain : (runAppends make_string evs).size = successfulBytes evs := by
    have h := runAppends_size evs make_string h1 (by simp [make_string]; omega)
    simpa [make_string] using h
  refine ⟨hmain, fun n => ?_⟩
  have hsplit : successfulBytes (evs.take n) + successfulBytes (evs.drop n)
      = successfulBytes evs := by
    rw [← successfulBytes_append, List.take_append_drop]
  have h1t : ∀ e ∈ evs.take n, e.sz * e.nmemb < size_t_mod :=
    fun e he => h1 e (List.take_subset n evs he)
  have htake : (runAppends make_string (evs.take n)).size
      = successfulBytes (evs.take n) := by
    have h := runAppends_size (evs.take n) make_string h1t
      (by simp [make_string]; omega)
    simpa [make_string] using h
  rw [hmain, htake]
  omega

/-- Concrete transfer used to witness the append-sequence theorems:
two successful appends (2 and 3 bytes) around one failed one. -/
def evsW : List AppendEvent :=
  [⟨[1, 2], 1, 2, true⟩, ⟨[9], 1, 1, false⟩, ⟨[3, 4, 5], 3, 1, true⟩]

/-- Witness for `sink_size_sum_invariant` at the concrete transfer
`evsW`: the final size is 5 = 2 + 3, counting only successful appends. -/
theorem sink_size_sum_invariant_witness :
    successfulBytes evsW = 5 ∧
    ((runAppends make_string evsW).size = successfulBytes evsW ∧
     ∀ n, (runAppends make_string (evsW.take n)).size
       ≤ (runAppends make_string evsW).size) :=
  ⟨by decide, sink_size_sum_invariant evsW (by decide) (by decide)⟩

theorem write_callback_success_eq (contents : List Nat) (sz nmemb : Nat)
    (mem : binary_string_t) (hov : mem.size + sz * nmemb < size_t_mod) :
    write_callback contents sz nmemb mem true
      = ({ size := mem.size + sz * nmemb,
           content := some ((mem.content.getD []).take mem.size
             ++ contents.take (sz * nmemb) ++ [0]) }, sz * nmemb) := by
  have hmul : sz * nmemb < size_t_mod := by omega
  simp [write_callback, Nat.mod_eq_of_lt hmul, Nat.mod_eq_of_lt hov]

/-- C2: `write_callback` is append-only: a successful call leaves the
previously accumulated bytes untouched as a prefix and extends the
sink's accumulated bytes with exactly the `size * nmemb` bytes read
from `contents`, given a well-formed sink (`size` within the buffer),
a chunk that actually holds `size * nmemb` bytes, and no `size_t`
overflow. -/
theorem write_callback_append_only (contents : List Nat) (sz nmemb : Nat)
    (mem : binary_string_t)
    (hwf : mem.size ≤ (mem.content.getD []).length)
    (hlen : sz * nmemb ≤ contents.length)
    (hov : mem.size + sz * nmemb < size_t_mod) :
    (write_callback contents sz nmemb mem true).1.size = mem.size + sz * nmemb ∧
    accumulated (write_callback contents sz nmemb mem true).1
      = accumulated mem ++ contents.take (sz * nmemb) := by
  rw [write_callback_success_eq contents sz nmemb mem hov]
  refine ⟨rfl, ?_⟩
  unfold accumulated
  simp only [Option.getD_some]
  apply List.take_left'
  simp only [List.length_append, List.length_take]
  omega

/-- Witness for `write_callback_append_only`: appending the 3-byte
chunk `[7, 8, 9]` to a sink holding `[10, 20]` yields `[10, 20, 7, 8, 9]`
as accumulated bytes. -/
theorem write_callback_append_only_witness :
    (write_callback [7, 8, 9] 3 1 ⟨2, some [10, 20, 0]⟩ true).1.size = 2 + 3 * 1 ∧
    accumulated (write_callback [7, 8, 9] 3 1 ⟨2, some [10, 20, 0]⟩ true).1
      = accumulated ⟨2, some [10, 20, 0]⟩ ++ List.take (3 * 1) [7, 8, 9] :=
  write_callback_append_only [7, 8, 9] 3 1 ⟨2, some [10, 20, 0]⟩
    (by decide) (by decide) (by decide)

/-- C9: after every successful `write_callback` call the buffer has
exactly `size + 1` allocated bytes and holds a terminating `0` byte at
index `size`, so the accumulated bytes are readable as a NUL-terminated
string. -/
theorem write_callback_nul_terminated (contents : List Nat) (sz nmemb : Nat)
    (mem : binary_string_t)
    (hwf : mem.size ≤ (mem.content.getD []).length)
    (hlen : sz * nmemb ≤ contents.length)
    (hov : mem.size + sz * nmemb < size_t_mod) :
    ∃ c, (write_callback contents sz nmemb mem true).1.content = some c ∧
      c.length = (write_callback contents sz nmemb mem true).1.size + 1 ∧
      c.drop (write_callback contents sz nmemb mem true).1.size = [0] := by
  rw [write_callback_success_eq contents sz nmemb mem hov]
  refine ⟨_, rfl, ?_, ?_⟩
  · simp only [List.length_append, List.length_take, List.length_cons,
      List.length_nil]
    omega
  · apply List.drop_left'
    simp only [List.length_append, List.length_take]
    omega

/-- Witness for `write_callback_nul_terminated`: appending `[7, 8]` to a
sink holding `[10, 20]` gives a 5-byte buffer ending in the NUL byte. -/
theorem write_callback_nul_terminated_witness :
    ∃ c, (write_callback [7, 8] 2 1 ⟨2, some [10, 20, 0]⟩ true).1.content = some c ∧
      c.length = (write_callback [7, 8] 2 1 ⟨2, some [10, 20, 0]⟩ true).1.size + 1 ∧
      c.drop (write_callback [7, 8] 2 1 ⟨2, some [10, 20, 0]⟩ true).1.size = [0] :=
  write_callback_nul_terminated [7, 8] 2 1 ⟨2, some [10, 20, 0]⟩
    (by decide) (by decide) (by decide)

/-- C4: `make_string` returns a sink with `size = 0`, a NULL buffer and
no accumulated content, so a transfer always starts into an empty
buffer. -/
theorem make_string_initial_empty :
    make_string.size = 0 ∧ make_string.content = none ∧
    accumulated make_string = [] :=
  ⟨rfl, rfl, rfl⟩

/-- C10: `free_string` is NULL-safe: on a NULL argument it performs no
`free` at all, and on a descriptor whose `content` pointer is NULL it
frees only the struct itself, never the NULL content pointer. -/
theorem free_string_null_safe :
    free_string none = [] ∧
    ∀ n : Nat, free_string (some ⟨n, none⟩) = [FreeCall.freeStruct] :=
  ⟨rfl, fun _ => rfl⟩

/-- C3 counterexample: the claimed equivalence "returns the full byte
count `size * nmemb` iff the reallocation succeeds" fails at the
concrete call `write_callback([], 0, 0, fresh sink)` with a failing
realloc (the `false` flag): the call returns `0`, which IS the full
byte count `0 * 0`, although the reallocation did not succeed. -/
theorem write_callback_return_iff_counterexample :
    ¬ (((write_callback [] 0 0 make_string false).2 = 0 * 0) ↔ (false = true)) := by
  decide

/-- C3 amended: `write_callback` returns the full byte count
`size * nmemb` whenever the reallocation succeeds; on allocation
failure it returns `0` (which coincides with the full byte count only
in the degenerate case `size * nmemb = 0`) and leaves the sink's
recorded `size` field unchanged; when `size * nmemb` is positive the
return value equals the full byte count exactly when the reallocation
succeeded. -/
theorem write_callback_return_amended (contents : List Nat) (sz nmemb : Nat)
    (mem : binary_string_t) (hmul : sz * nmemb < size_t_mod) :
    (write_callback contents sz nmemb mem true).2 = sz * nmemb ∧
    (write_callback contents sz nmemb mem false).2 = 0 ∧
    (write_callback contents sz nmemb mem false).1.size = mem.size ∧
    (0 < sz * nmemb → ∀ ok : Bool,
      ((write_callback contents sz nmemb mem ok).2 = sz * nmemb ↔ ok = true)) := by
  refine ⟨?_, rfl, rfl, ?_⟩
  · simp [write_callback, Nat.mod_eq_of_lt hmul]
  · intro hpos ok
    cases ok with
    | false =>
      rw [show (write_callback contents sz nmemb mem false).2 = 0 from rfl]
      simp only [Bool.false_eq_true, iff_false]
      omega
    | true =>
      simp [write_callback, Nat.mod_eq_of_lt hmul]

/-- Witness for `write_callback_return_amended` at a 2-byte append to
a fresh sink. -/
theorem write_callback_return_amended_witness :
    (write_callback [5, 6] 2 1 make_string true).2 = 2 * 1 ∧
    (write_callback [5, 6] 2 1 make_string false).2 = 0 ∧
    (write_callback [5, 6] 2 1 make_string false).1.size = make_string.size ∧
    (0 < 2 * 1 → ∀ ok : Bool,
      ((write_callback [5, 6] 2 1 make_string ok).2 = 2 * 1 ↔ ok = true)) :=
  write_callback_return_amended [5, 6] 2 1 make_string (by decide)

/-- C5 counterexample: the buffer does not grow by amortized doubling.
At the concrete sink holding 1 byte in a 2-byte buffer, appending one
byte needs a larger buffer (2 < 1 + 1 + 1), yet the reallocated
capacity is 3, less than double the previous capacity 2 * 2 = 4. -/
theorem write_callback_growth_counterexample :
    (2 < 1 + 1 * 1 + 1) ∧
    (write_callback [66] 1 1 ⟨1, some [65, 0]⟩ true).1.content = some [65, 66, 0] ∧
    ¬ (2 * 2 ≤ [65, 66, 0].length) := by
  refine ⟨by decide, by decide, by decide⟩

/-- C5 amended: the buffer grows by exact fit, not doubling: every
successful append of `size * nmemb` bytes reallocates the buffer to
exactly `old_size + size * nmemb + 1` bytes, so `k` single-byte appends
perform `k` reallocations rather than `O(log k)`. -/
theorem write_callback_exact_fit_growth (contents : List Nat) (sz nmemb : Nat)
    (mem : binary_string_t)
    (hwf : mem.size ≤ (mem.content.getD []).length)
    (hlen : sz * nmemb ≤ contents.length)
    (hov : mem.size + sz * nmemb < size_t_mod) :
    ∃ c, (write_callback contents sz nmemb mem true).1.content = some c ∧
      c.length = mem.size + sz * nmemb + 1 := by
  rw [write_callback_success_eq contents sz nmemb mem hov]
  refine ⟨_, rfl, ?_⟩
  simp only [List.length_append, List.length_take, List.length_cons,
    List.length_nil]
  omega

/-- Witness for `write_callback_exact_fit_growth`: a 1-byte append to a
sink of size 1 reallocates to exactly 3 bytes. -/
theorem write_callback_exact_fit_growth_witness :
    ∃ c, (write_callback [66, 67] 1 2 ⟨1, some [65, 0]⟩ true).1.content = some c ∧
      c.length = 1 + 1 * 2 + 1 :=
  write_callback_exact_fit_growth [66, 67] 1 2 ⟨1, some [65, 0]⟩
    (by decide) (by decide) (by decide)

/-- A native `curl_easy_setopt` oracle that accepts every call. -/
def nativeOk : Nat → Int → CArg → Int := fun _ _ _ => CURLE_OK

/-- A native `curl_easy_setopt` oracle that rejects the unsupported
option code 9999999 with the runtime error `CURLE_UNKNOWN_OPTION`
(48) and accepts everything else. -/
def nativeUnknownOpt : Nat → Int → CArg → Int :=
  fun _ o _ => if o = 9999999 then 48 else CURLE_OK

/-- C7: for `CURLOPT_WRITEDATA` (resp. `CURLOPT_HEADERDATA`) the shim
first installs `write_callback` as the write (resp. header) function
and, only if that installation returns `CURLE_OK`, forwards the data
pointer to the native library; if the installation fails its error is
returned and the data pointer is not forwarded. -/
theorem setopt_writedata_installs_callback (native : Nat → Int → CArg → Int)
    (curl : Nat) (p : Param) :
    (native curl CURLOPT_WRITEFUNCTION CArg.fval = CURLE_OK →
      curl_cffi_easy_setopt native curl CURLOPT_WRITEDATA p
        = (native curl CURLOPT_WRITEDATA (CArg.pval p.addr),
           [(CURLOPT_WRITEFUNCTION, CArg.fval),
            (CURLOPT_WRITEDATA, CArg.pval p.addr)])) ∧
    (native curl CURLOPT_WRITEFUNCTION CArg.fval ≠ CURLE_OK →
      curl_cffi_easy_setopt native curl CURLOPT_WRITEDATA p
        = (native curl CURLOPT_WRITEFUNCTION CArg.fval,
           [(CURLOPT_WRITEFUNCTION, CArg.fval)])) ∧
    (native curl CURLOPT_HEADERFUNCTION CArg.fval = CURLE_OK →
      curl_cffi_easy_setopt native curl CURLOPT_HEADERDATA p
        = (native curl CURLOPT_HEADERDATA (CArg.pval p.addr),
           [(CURLOPT_HEADERFUNCTION, CArg.fval),
            (CURLOPT_HEADERDATA, CArg.pval p.addr)])) ∧
    (native curl CURLOPT_HEADERFUNCTION CArg.fval ≠ CURLE_OK →
      curl_cffi_easy_setopt native curl CURLOPT_HEADERDATA p
        = (native curl CURLOPT_HEADERFUNCTION CArg.fval,
           [(CURLOPT_HEADERFUNCTION, CArg.fval)])) := by
  have hw : ¬ (CURLOPT_WRITEDATA < INTEGER_OPTION_MAX) := by decide
  have hh : ¬ (CURLOPT_HEADERDATA < INTEGER_OPTION_MAX) := by decide
  have hne : CURLOPT_HEADERDATA ≠ CURLOPT_WRITEDATA := by decide
  refine ⟨fun h => ?_, fun h => ?_, fun h => ?_, fun h => ?_⟩ <;>
    simp [curl_cffi_easy_setopt, h, hw, hh, hne]

/-- Witness for `setopt_writedata_installs_callback` with an
all-accepting native library: setting `CURLOPT_WRITEDATA` issues the
`CURLOPT_WRITEFUNCTION` install followed by the data-pointer call. -/
theorem setopt_writedata_installs_callback_witness :
    curl_cffi_easy_setopt nativeOk 0 CURLOPT_WRITEDATA ⟨100, [1, 0, 0, 0, 0, 0, 0, 0]⟩
      = (nativeOk 0 CURLOPT_WRITEDATA (CArg.pval 100),
         [(CURLOPT_WRITEFUNCTION, CArg.fval),
          (CURLOPT_WRITEDATA, CArg.pval 100)]) :=
  (setopt_writedata_installs_callback nativeOk 0 ⟨100, [1, 0, 0, 0, 0, 0, 0, 0]⟩).1 rfl

/-- C6 counterexample: option codes are not a closed variant type
checked at construction time: the shim forwards the unsupported raw
code 9999999 to the native library and returns its runtime error code
`CURLE_UNKNOWN_OPTION` (48) from the setopt path. -/
theorem setopt_invalid_option_runtime_error :
    (curl_cffi_easy_setopt nativeUnknownOpt 0 9999999 ⟨100, []⟩).1 = 48 ∧
    (curl_cffi_easy_setopt nativeUnknownOpt 0 9999999 ⟨100, []⟩).2
      = [((9999999 : Int), CArg.pval 100)] := by
  refine ⟨by decide, by decide⟩

/-- C6 amended: the shim represents option codes as raw integers and
performs no validity check: every code other than the two data-pointer
specials is forwarded unchanged to the native `curl_easy_setopt` (as a
dereferenced int below `INTEGER_OPTION_MAX`, as the raw pointer
otherwise), and the native library's runtime return code is the only
failure signal. -/
theorem setopt_raw_option_forwarding (native : Nat → Int → CArg → Int)
    (curl : Nat) (o : Int) (p : Param)
    (hwd : o ≠ CURLOPT_WRITEDATA) (hhd : o ≠ CURLOPT_HEADERDATA) :
    curl_cffi_easy_setopt native curl o p
      = if o < INTEGER_OPTION_MAX then
          (native curl o (CArg.ival p.asInt), [(o, CArg.ival p.asInt)])
        else
          (native curl o (CArg.pval p.addr), [(o, CArg.pval p.addr)]) := by
  simp [curl_cffi_easy_setopt, hwd, hhd]

/-- Witness for `setopt_raw_option_forwarding` at the integer option
code 13 (`CURLOPT_TIMEOUT`). -/
theorem setopt_raw_option_forwarding_witness :
    curl_cffi_easy_setopt nativeOk 0 13 ⟨100, [7, 0, 0, 0]⟩
      = if (13 : Int) < INTEGER_OPTION_MAX then
          (nativeOk 0 13 (CArg.ival (Param.asInt ⟨100, [7, 0, 0, 0]⟩)),
           [((13 : Int), CArg.ival (Param.asInt ⟨100, [7, 0, 0, 0]⟩))])
        else
          (nativeOk 0 13 (CArg.pval 100), [((13 : Int), CArg.pval 100)]) :=
  setopt_raw_option_forwarding nativeOk 0 13 ⟨100, [7, 0, 0, 0]⟩ (by decide) (by decide)

/-- C8 counterexample: the two `_curl_easy_setopt` implementations are
not extensionally equivalent. For the off_t-range option code 30000
with a parameter at address 100 whose pointee bytes encode the value 1,
the curl_cffi shim passes the raw pointer while the ffi shim passes the
dereferenced 64-bit value, so they hand different arguments to the
native `curl_easy_setopt`. -/
theorem setopt_impls_differ_counterexample :
    (curl_cffi_easy_setopt nativeOk 0 30000 ⟨100, [1, 0, 0, 0, 0, 0, 0, 0]⟩).2
      = [((30000 : Int), CArg.pval 100)] ∧
    (ffi_easy_setopt nativeOk 0 30000 ⟨100, [1, 0, 0, 0, 0, 0, 0, 0]⟩).2
      = [((30000 : Int), CArg.oval 1)] ∧
    (curl_cffi_easy_setopt nativeOk 0 30000 ⟨100, [1, 0, 0, 0, 0, 0, 0, 0]⟩).2
      ≠ (ffi_easy_setopt nativeOk 0 30000 ⟨100, [1, 0, 0, 0, 0, 0, 0, 0]⟩).2 := by
  refine ⟨by decide, by decide, by decide⟩

/-- C8 amended: the two implementations agree exactly on the
object/function-pointer options: for every option code at least
`CURLOPTTYPE_OBJECTPOINT`, outside the off_t range
`[CURLOPTTYPE_OFF_T, CURLOPTTYPE_BLOB)` and distinct from
`CURLOPT_WRITEDATA` and `CURLOPT_HEADERDATA`, both pass the raw
pointer to the native library in a single call and return its result;
they differ on integer options (int vs long dereference), off_t
options (pointer vs dereferenced value) and the two data-pointer
specials (callback installation). -/
theorem setopt_impls_agree_on_pointer_options (native : Nat → Int → CArg → Int)
    (curl : Nat) (o : Int) (p : Param)
    (h1 : CURLOPTTYPE_OBJECTPOINT ≤ o)
    (h2 : ¬ (CURLOPTTYPE_OFF_T ≤ o ∧ o < CURLOPTTYPE_BLOB))
    (h3 : o ≠ CURLOPT_WRITEDATA) (h4 : o ≠ CURLOPT_HEADERDATA) :
    curl_cffi_easy_setopt native curl o p = ffi_easy_setopt native curl o p ∧
    curl_cffi_easy_setopt native curl o p
      = (native curl o (CArg.pval p.addr), [(o, CArg.pval p.addr)]) := by
  have hno : ¬ (o < INTEGER_OPTION_MAX) := by
    unfold INTEGER_OPTION_MAX
    unfold CURLOPTTYPE_OBJECTPOINT at h1
    omega
  have hno2 : ¬ (o < CURLOPTTYPE_OBJECTPOINT) := by
    unfold CURLOPTTYPE_OBJECTPOINT at h1 ⊢
    omega
  constructor
  · simp [curl_cffi_easy_setopt, ffi_easy_setopt, h2, h3, h4, hno, hno2]
  · simp [curl_cffi_easy_setopt, h3, h4, hno]

/-- Witness for `setopt_impls_agree_on_pointer_options` at the
function-pointer range option code 20000. -/
theorem setopt_impls_agree_on_pointer_options_witness :
    curl_cffi_easy_setopt nativeOk 0 20000 ⟨100, [1, 0, 0, 0, 0, 0, 0, 0]⟩
      = ffi_easy_setopt nativeOk 0 20000 ⟨100, [1, 0, 0, 0, 0, 0, 0, 0]⟩ ∧
    curl_cffi_easy_setopt nativeOk 0 20000 ⟨100, [1, 0, 0, 0, 0, 0, 0, 0]⟩
      = (nativeOk 0 20000 (CArg.pval 100), [((20000 : Int), CArg.pval 100)]) :=
  setopt_impls_agree_on_pointer_options nativeOk 0 20000 ⟨100, [1, 0, 0, 0, 0, 0, 0, 0]⟩
    (by decide) (by decide) (by decide) (by decide)
